import Mathlib

/-!
Verification of the reference pseudorandom generators in CwlSignal:
the MT19937-64 Mersenne Twister (`mt19937-64.c`) and the xoshiro256**
generator (`xoshiro256starstar.c`).  The C code is shallowly embedded:
unsigned 64-bit words become `Nat` with explicit `% 2^64` wherever the C
arithmetic can wrap, and the 312-word state array becomes a function
`Nat → Nat` updated pointwise.
-/

namespace CwlRandom

/-- Modulus of unsigned 64-bit arithmetic, `2^64`. -/
def U64 : Nat := 2 ^ 64

/-- Wraparound unsigned 64-bit addition. -/
def add64 (a b : Nat) : Nat := (a + b) % U64

/-- Wraparound unsigned 64-bit multiplication. -/
def mul64 (a b : Nat) : Nat := (a * b) % U64

/-- Wraparound unsigned 64-bit subtraction `a - b`. -/
def sub64 (a b : Nat) : Nat := (a + (U64 - b % U64)) % U64

/-- Wraparound unsigned 64-bit left shift. -/
def shl64 (a k : Nat) : Nat := (a <<< k) % U64

/-- Pointwise update of a state array represented as a function. -/
def upd (w : Nat → Nat) (k v : Nat) : Nat → Nat := fun i => if i = k then v else w i

/-! ### MT19937-64 (`mt19937-64.c`) -/

/-- Number of 64-bit words in the MT19937-64 state (`NN`). -/
def NN : Nat := 312

/-- Middle offset of the recurrence (`MM`). -/
def MM : Nat := 156

/-- Twist matrix constant (`MATRIX_A`). -/
def MATRIX_A : Nat := 0xB5026F5AA96619E9

/-- Mask of the most significant 33 bits (`UM`). -/
def UM : Nat := 0xFFFFFFFF80000000

/-- Mask of the least significant 31 bits (`LM`). -/
def LM : Nat := 0x7FFFFFFF

/-- State of MT19937-64 (`struct mt19937_64`): 312 words (indices `0..311`
of `mt`) and the cursor `mti`. -/
structure MT19937 where
  mt : Nat → Nat
  mti : Nat

/-- Loop body of `init_genrand64`:
`mt[mti] = 6364136223846793005 * (mt[mti-1] ^ (mt[mti-1] >> 62)) + mti`
for `mti = 1 .. NN-1`; `fuel` counts the remaining iterations. -/
def seedLoop (w : Nat → Nat) (mti : Nat) : Nat → (Nat → Nat)
  | 0 => w
  | fuel + 1 =>
    seedLoop
      (upd w mti (add64 (mul64 6364136223846793005 (w (mti - 1) ^^^ (w (mti - 1) >>> 62))) mti))
      (mti + 1) fuel

/-- Scalar seeding `init_genrand64`.  Sets `mt[0] = seed`, fills
`mt[1..311]` by the seeding recurrence, and leaves `mti = NN`. -/
def init_genrand64 (seed : Nat) : MT19937 :=
  ⟨seedLoop (upd (fun _ => 0) 0 seed) 1 (NN - 1), NN⟩

/-- First mixing pass of `init_by_array64`: runs `max(NN, key_length)`
times; `i` is the state cursor (wrapping to 1 after copying `mt[NN-1]`
into `mt[0]`), `j` the key cursor (wrapping to 0). -/
def arrayPass1 (w : Nat → Nat) (i j : Nat) (key : List Nat) : Nat → ((Nat → Nat) × Nat × Nat)
  | 0 => (w, i, j)
  | fuel + 1 =>
    let v := add64 (add64 (w i ^^^ mul64 (w (i - 1) ^^^ (w (i - 1) >>> 62)) 3935559000370003845)
      (key.getD j 0)) j
    let w1 := upd w i v
    let p := if NN ≤ i + 1 then (upd w1 0 (w1 (NN - 1)), 1) else (w1, i + 1)
    arrayPass1 p.1 p.2 (if key.length ≤ j + 1 then 0 else j + 1) key fuel

/-- Second mixing pass of `init_by_array64`: runs `NN - 1` times with the
same wraparound rule for `i`; the subtraction `- i` wraps mod `2^64`. -/
def arrayPass2 (w : Nat → Nat) (i : Nat) : Nat → ((Nat → Nat) × Nat)
  | 0 => (w, i)
  | fuel + 1 =>
    let v := sub64 (w i ^^^ mul64 (w (i - 1) ^^^ (w (i - 1) >>> 62)) 2862933555777941757) i
    let w1 := upd w i v
    let p := if NN ≤ i + 1 then (upd w1 0 (w1 (NN - 1)), 1) else (w1, i + 1)
    arrayPass2 p.1 p.2 fuel

/-- Array seeding `init_by_array64`.  Scalar-seeds with `19650218`, runs
the two mixing passes, then forces `mt[0] = 1 << 63`.  `mti` is the value
left by `init_genrand64`, namely `NN`. -/
def init_by_array64 (key : List Nat) : MT19937 :=
  let c := init_genrand64 19650218
  let p1 := arrayPass1 c.mt 1 0 key (max NN key.length)
  let w2 := (arrayPass2 p1.1 p1.2.1 (NN - 1)).1
  ⟨upd w2 0 (1 <<< 63), c.mti⟩

/-- The shared twist combination: given the `+MM` neighbour `s`, the word
`a` at the position itself and the `+1` neighbour `b`, computes
`s ^ (((a & UM) | (b & LM)) >> 1) ^ ((b & 1) * MATRIX_A)`. -/
def g (s a b : Nat) : Nat :=
  s ^^^ (((a &&& UM) ||| (b &&& LM)) >>> 1) ^^^ ((b &&& 1) * MATRIX_A)

/-- One iteration of the restructured untwist loop in `genrand64_int64`:
the forward update at `i` followed by the simultaneous update at `j`
(which reads `mt[j - MM] = mt[i]` just written). -/
def twistStep (w : Nat → Nat) (i j : Nat) : Nat → Nat :=
  let w1 := upd w i (g (w (i + MM)) (w i) (w (i + 1)))
  upd w1 j (g (w1 (j - MM)) (w1 j) (w1 (j + 1)))

/-- The main untwist loop: `for (i = 0, j = mid; i != mid - 1; i++, j++)`,
i.e. `mid - 1` iterations counted by `fuel`. -/
def fastTwistAux (w : Nat → Nat) (i j : Nat) : Nat → (Nat → Nat)
  | 0 => w
  | fuel + 1 => fastTwistAux (twistStep w i j) (i + 1) (j + 1) fuel

/-- The full restructured regeneration of `genrand64_int64`: saves
`stateMid = mt[mid]` before the loop, runs the main loop, then performs
the two boundary updates at `mid - 1` and `NN - 1`. -/
def fastTwist (w : Nat → Nat) : Nat → Nat :=
  let mid := NN / 2
  let stateMid := w mid
  let w1 := fastTwistAux w 0 mid (mid - 1)
  let w2 := upd w1 (mid - 1) (g (w1 (NN - 1)) (w1 (mid - 1)) stateMid)
  upd w2 (NN - 1) (g (w2 (mid - 1)) (w2 (NN - 1)) (w2 0))

/-- The tempering transform applied to the extracted word. -/
def temper (r0 : Nat) : Nat :=
  let r1 := r0 ^^^ ((r0 >>> 29) &&& 0x5555555555555555)
  let r2 := r1 ^^^ (shl64 r1 17 &&& 0x71D67FFFEDA60000)
  let r3 := r2 ^^^ (shl64 r2 37 &&& 0xFFF7EEE000000000)
  r3 ^^^ (r3 >>> 43)

/-- Extraction `genrand64_int64` (the spec's `mt_next_u64`): regenerates the batch
when `mti >= NN`, then extracts `mt[mti]`, increments `mti` and tempers
the extracted word.  Returns the draw and the new state. -/
def genrand64_int64 (c : MT19937) : Nat × MT19937 :=
  let c1 := if NN ≤ c.mti then MT19937.mk (fastTwist c.mt) 0 else c
  (temper (c1.mt c1.mti), ⟨c1.mt, c1.mti + 1⟩)

/-! ### The naive textbook recurrence, stated from the spec

`naiveTwist` is the single-pass in-place modulo-indexed implementation of
the textbook recurrence that the spec demands the restructured loop be
bit-identical to: for each `k` from 0 to 311,
`mt[k] = mt[(k+156) % 312] ^ (x >> 1) ^ ((mt[(k+1) % 312] & 1) * MATRIX_A)`
with `x = (mt[k] & UM) | (mt[(k+1) % 312] & LM)`. -/

/-- One in-place step of the textbook recurrence at position `k`. -/
def naiveStep (w : Nat → Nat) (k : Nat) : Nat → Nat :=
  upd w k (g (w ((k + MM) % NN)) (w k) (w ((k + 1) % NN)))

/-- The naive single pass, `fuel` steps starting at position `k`. -/
def naiveTwistAux (w : Nat → Nat) (k : Nat) : Nat → (Nat → Nat)
  | 0 => w
  | fuel + 1 => naiveTwistAux (naiveStep w k) (k + 1) fuel

/-- The naive single-pass regeneration: positions `0` to `NN - 1` in order. -/
def naiveTwist (w : Nat → Nat) : Nat → Nat := naiveTwistAux w 0 NN

/-! ### xoshiro256** (`xoshiro256starstar.c`) -/

/-- Left rotation `rotl` on 64 bits, `(x << k) | (x >> (64 - k))`, the left
shift wrapping mod `2^64`. -/
def rotl (x k : Nat) : Nat := shl64 x k ||| (x >>> (64 - k))

/-- State of xoshiro256**: four 64-bit words `s[0..3]`. -/
structure XState where
  s0 : Nat
  s1 : Nat
  s2 : Nat
  s3 : Nat

/-- Step function `xoshiro_next`: emits `rotl(s[1] * 5, 7) * 9` computed from the
pre-step `s[1]`, then updates the state by the xor/shift/rotate sequence
of the source, in source order. -/
def xoshiro_next (st : XState) : Nat × XState :=
  let result := mul64 (rotl (mul64 st.s1 5) 7) 9
  let t := shl64 st.s1 17
  let s2a := st.s2 ^^^ st.s0
  let s3a := st.s3 ^^^ st.s1
  let s1a := st.s1 ^^^ s2a
  let s0a := st.s0 ^^^ s3a
  let s2b := s2a ^^^ t
  let s3b := rotl s3a 45
  (result, ⟨s0a, s1a, s2b, s3b⟩)

/-! ### Value-level description of one regeneration

For the equivalence proof both the restructured loop and the naive pass
are shown equal to the following direct description of the regenerated
words in terms of the pre-regeneration array `w`. -/

/-- Regenerated word at a position below 156, written directly in terms
of the old array. -/
def newLow (w : Nat → Nat) (k : Nat) : Nat :=
  if k = 155 then g (w 311) (w 155) (w 156) else g (w (k + 156)) (w k) (w (k + 1))

/-- Regenerated word at an arbitrary position: positions from 156 on
combine an already-regenerated low word with old neighbours; positions
past 311 are untouched. -/
def newVal (w : Nat → Nat) (k : Nat) : Nat :=
  if k < 156 then newLow w k
  else if k < 311 then g (newLow w (k - 156)) (w k) (w (k + 1))
  else if k = 311 then g (newLow w 155) (w 311) (newLow w 0)
  else w k

/-- Intermediate shape of the naive pass: positions below `k` already
regenerated, the rest untouched. -/
def mix (w : Nat → Nat) (k : Nat) : Nat → Nat :=
  fun i => if i < k then newVal w i else w i

/-- Intermediate shape of the restructured loop after `t` iterations:
positions below `t` and positions `156 .. 155 + t` already regenerated. -/
def mix2 (w : Nat → Nat) (t : Nat) : Nat → Nat :=
  fun i => if i < t ∨ (156 ≤ i ∧ i < 156 + t) then newVal w i else w i

/-! ### Packed states for concrete runs

To check concrete seeding runs against precomputed snapshots, a state is
packed into a single natural number, word `i` occupying bits
`64*i .. 64*i + 63`. -/

/-- Unpacked view of a packed state. -/
def fromN (N : Nat) : Nat → Nat := fun i => (N >>> (64 * i)) % U64

/-- Packing of words `i, i+1, ...` (`fuel` of them) of a state. -/
def encodeAux (w : Nat → Nat) (i : Nat) : Nat → Nat
  | 0 => 0
  | fuel + 1 => w i + (encodeAux w (i + 1) fuel <<< 64)

/-- Packing of the 312 words of an MT state. -/
def encode (w : Nat → Nat) : Nat := encodeAux w 0 312

/-- Snapshot of the MT state after scalar seeding with 19650218. -/
def NI : Nat := 27353217597299909356090240627129251933362972056756785038780834595007969467393526054894424410527643953017960736778572540777384927334670454282506364013854187130782213946468836857885198403972783974817301077678511671087319104195754458397428582530850958012210248538089796646266473255071878937105470112526157691800778482142850222802593474837074729455724456040970950812987927861617791544619752863437021863374065399506054742998935293671835417415781989013737421485606889705076008982749558208926973012502910971628179345341524883666011333996838234790308899946431237113521918775861110527431012541999027553131846665349813510064152494602773342855844194388431488845059902323794547479404617922114016624117724741372448273594268446638785573180787250148804496734584935697136589694114029684010434018471785900234943519812028105194865078425506068870857334531009006533555397239993822407155889673010313147001889157781205534850654748602621302940650803708362693909765486018736192341521167569738647147308591841759667404338204673555308757556915733666955361328711853502778631786403147770746583863515026126049413243850208604370799494800690861175375379411993333699093894318948415024620658938924539675401956662222668568513472103073492061449232690382117622800738755199285503577304712636977937640824496637022432924486892120626049005751184357739961430953761054226582545846208164695053524049165616485582583605301094420343124394432850081391263333227434174718484710472310045022316140931490664110802248600489403231091705403795651540270099622613051638235632291475547288550573352309694306987907299629208659421766139223767196529957610312438523391751249249698668291741565222680730215867058405717909225539295487011098828871437120434218055533619491298218231845365849543878433475223649487829514691976953038729804999540454326937797274538619550622082616695658287787159198304784096337952523084073522219489343606268883067653695356599555657268730821025043432123492317694541165911775976295142497174706581828212571934161993544409262729905244118639696847795619774200121303754886775140921081515250951283797154014958078215099384270741194100067093922256278061571610167961722711599549582728046999396200732011260513230563124822555989567155024434365911138086280025638725430914674484071089676148025517770951049073704125477164824337119043963428344209616607949630239141935332071176057312098388592654879696267579972774095377627351844840158946853899225088315872089961871424384363596369632898515900400774608345156728365787301186726151838096065838066184324596797455005389850394910624974863555260373269731249424994760624974130106137316213035532399397639964869466668928835512966121184830235202133850984646595589512783109696621719109312215673774178260374410854876806216240857233448165887830892205596773902165081488157375471638836638650550077594451024210001260475000831625993734640281099435141020176991362823789069768396551530134439911060127894756914143724040863775105299792754570316765353860921905607151349025345509163303185466509755355883984496918567175576797190016706571141850297449371969513256038942454412527323738028949684525173321578930454110894069223271337652340222164606469905145236770789269607486637957309654455377681004877911701627522755675699998625515480868417783620195020780421983846677240528200202624765783936485147720758039602911244136641279019303584593641857477534504676401415074839371921864959262386711605799384406374303175991999000911840490707649746616687222232397838506647918068365536077127018887995193965540757961741821580383846134219490496076794237080226235334847132660204310475236520130181714167704097936290698716322275666573471915708742172637408832335751391479867636434718882444984118269127779364719051248807186222330817174459820092144742642365575416769655750828007782008154405488768376695576575330464759455121178877799822788179361353210175304483008747917397682287264431355447591497101012958970598212142477232884020958381337381973428106080020732340336359943492955391795113056639479678336821026881557574346477072171379074003714819251652102011970552030635491958916914083005726783089199733365689401830886340480415908294847129562602727934766074488379143653978571635980252983932023170018250193365299599879882369766652581029873338689318122712060385833264286316321511616206875891523979296865526211190926251024888575213911278484092307763061571686675822062696027397217668535423727823946782840140670935138676520386293272396827685910373153693276681790846988978947594050925309273108734283080286000659057217300421693832993001147852553466098995236165490113757090251236011431344237559587498275656668332783595550438591873050423291276655345988226890383350917103690904380258760884027010725122913049989139964203601195278905308965995640724788182933838777052409469514565921447601468064536499254412432016871584594282279691234998562448218879850949122825719432107508564036466734648541387202298483606027246237550874433120681549286680314055350427485285178312536500032251394295276941016809894058629102232111923253512646744363124637704107484719907265763840882188763246734296970859538568104543001052046605053491397832522349486887443772085740200531121595908688929370374101837683561531053202577996891057368218637389376844404519842667289719976634613332832432561543699221152260987171261945707757149602555732432517509619301677319011079256063599580565192392838333471675228335814989971047330119529855647467232829990784593924329017719236986039354855369386316505189891976474137189003840657915235474586686089278266582351858763826403290034079607088484247386761932515204987116383950560901513114126048005872776005282012483386299769370090096973917885171649427926839339341411488050863870737410461574026725407029333346204935899509651986830321826576650413958715966723093877753985106290577058506726211681347247289848957541059866463724202936873632033360278103292958780624344933339744886323900146467218019530755161224200545033812526252007306954312781506328669396905252899262663839682242897824063275868840391585702284567861008641242569946270636795527073760264382706247583946243989339041265025332163373079189162

/-- Snapshot after the first mixing pass of the array seeding. -/
def NP1 : Nat := 58722378584134775329482717513418875621178803954525872215091410754360033634841481752721907976420898696348997456308730846050994280594592202434520688673779985190396884274343180579182478915828012193574376514406864567940443852029767487025554510493186830531512972065912015461192735206780191025724576031367494393559246599113655903009480176118908472709471521478345531914762879858955969270555154341728931435248472656573082247329319720407802982813509720491596415766452921852186212837555650270949291095253446816905753842125420952949817618460418209807129906955296798695778392072913511646527958995473654406404930603373224278687702745264978730733086370386194980745636735004471970928103346737924395646145832880052282725323812722473472851736766070397343512248622467990364570734453031579696876325479639472819503501553757382851516440584204916694267312972839270515850647557807778133988411602802202368200962079645669195361370471253911781857892564588328144515106129561933963753464036385051710791238066013304708290125862719401888934029984114138213179638112099365060286163204761997378273642780342310723244745647148387793411524663263151988660495243648524599017808841435249785420974861360778929928430197142935550258599669470487877544206562286942514976828853918605502836893986967843620042296378903797320945290721470498192592450811397539459470796978797276182087821973743877691546508876978264150797452256267885255228055624818588638316105149783900932641700490313093884622182784271903379915599558248764301114665327027738617500554703959830562377120879338677123217923706030467539410601612967418501581342709644780639825869796020398664795194851233151517506958036516950443703326481031486419565084102174866623305666319340406299284204130207898837233953585844028634890930631193416749531477530526673225963671142164108637988058822778973474949275830908229742260429195709263380534834312130086802757810228891823129462514496695509822137587001957219910414398998144719637456405699108985592938097610554270125644480945930658484817002135297844891444758752815315159621165473512519392535082597447644449688139997954323202413509224713893812971196230194621917161334367825595650404043232853877986240868544495648119341854110729512162177407244045677764612154772761251825487417889213139813268960464605156494963630144071639365385735614651964656658829086354915370531568725926781413672895564806417606511485948282484790855622902339243579823157057931790079801030866479773330702009054892477889506783027332916500799926881970169941429262994888198124725015816718460443787194376192211432169413329588143190790506902948543579601778567500157506277384953291992784133787780564784687473847988947869476175049708451352354381170145300231326893749305389196633370854422098787990988902339799617241314280985860261466720266978145530665180160585771487406383033009103150859288578531059552869396048802782497780792825514738167337549418191024540654692174959510922916597723939576114449778019859731327089866883127565899975132450427010954220856804637292570884653166955581335036617407890052144739227385997911372578096558022672971008656315279886327327265337326775554577295606542844762893718755098808964092674050339052914267448348910585358927718389125169067172561939560686299159034278779577787601855334131661782182294085444363680767524070945958016865027842000834325588750755350592874026106152040034008643365151009232030128427579780805747303650399443776983183664419066263008336283737236270382168455025671188395256497209689302731592138687768109689853789254061150502019309156608178568741976095500360198772615991546144709467852677586451182145171220147531677864508408207729228847041587510620856807783826700234650097607207383923754212802695824141776789559301435018359751674339224582761524540156939359914021595561108283053184119823064675276523193867166556140883939602444976446560010299794486013778943416998128476706508589697809326036004081149781275116438418695031778762480981341876439567777548836396835587387506937421930676034145587574922484915906663239598893211796313379629348565246009235774618943333262337682702865766874858446971316177332535671558819030687009624642655933608325048077752909860743677713419615015529800124963568801973706718816104792865539284997061265267865130909305629451824319626999618855907123029597490874580126211939855012584551478325124618752446185584638406057018489544912933185165428363511205774466353086393296410834372623750235425617546215486129218749799618449647798785810123012109737631868083117033552062951146001229820319914082476706228470784804841741347576862233936155974879627497520257589982728619118878254043062827907116156890065433786387657990694636132092494810153360119326060426750628527706076589635054235547802540626628596634902145974517315283147576739691189495627592395598109996166542774663751389502049037007139737789859535962760474882406931345472720164466021824900420938040824155115403638303709993959753595472238131161974805935858368692952075969662826003073378980509891631649788823377993336402906370185533419499699621739138916167899016179747203669771060534647795052441965781408818485313733638026086722607672195614103786509668631377027657627287473677549231432328997307842422874408205006253002052593079195600388284207691012825066256430087604329915921373229752928491740246599688610046572055322341951425864893368162450622274063936794338265516100544992673645489539114612063876222328048611550379982551855837075669858878565369800885062902983388381248237817376365082890331109612317698175581135066613115202480803460765394814801707564458647789450116945814308653018547160687997750235827374524184153401583719494602780398788397541308121110804598978159211311291050577680679003532756109269934899036257880013547851957344649690755530437116156870918508530495028141458307772325985365988937262637509790653294118843731601403718074742850105468312545946476050984399176080435714081805582572065957084133287904291030250246609974278901552247014923577320111078806282628115187914534887606682867466633610245635420903885591246722727351576805809789903388641905673521843045666856914446416204961492563386733573635

/-- Snapshot after the second mixing pass of the array seeding. -/
def NP2 : Nat := 46929754334912105675892246508437663884727032535968377080411571206236726802481326857438561719997186861971925202426107882915786164553619883086346754447078978196822322415844883393928133156313435918362743005942181929518301410666601152713881466335207941149848635910641241223462840647680095998023240086945259065979652871425773701479617810318672740033001189585587907445878271277907271156723239876568611376732383777316565644770423589724048857739138758187479815228424590769600020347325246482522623516286814441925927312231515718190878155072621877030947278774950689745804461734738546031711053522145336578295633476267574710951890742842845175001814756775075792164373290386857763538563216816280660952403951604957335030572254709563364756328351749742510119460071875254826898766182317773140601724929380419632836249821421608053060701799060534652156878486009487819284695613443428571134130297549864954757986460304115729116311530706814468175345087895930154000273146049567295658583595869837909949672206821604012404991533265755039951598732820598842645746145399620071096522022170529385805945554867442454362703846203157557769387057212115442933534778513679913958091418350210384761257839107741408141263607169322899231297257239248879374454075424672076565829842713838629806195959875090544779630577182246468871083614631619846466027089890511983312986634463742668394029356910718123006668842408258035925278368414321552574669115669159806015161850674199706853816683683538926764858923118914835313931201680384449067541635189244089307963025094780685295347258427841956335931131004422914444255172972580527101208065836544928742496963258010821866406112581071966151106894076183581514028889473467706181123826879317222748222835985126545088875046030572904591638421287661199947058863341697989438386745090246030115989350305134244179921102036874953064188057738225270607540876887703854197867212626091181400078753813651762559110487969612671373285112282082324006546003912226926386727290994461500020455746655172671636573057052091125197924699197113305209203081607650994604301286785586782401771089710213539968846387803889356202144877874253376708070269037742311639878212238178913145127724142737063566895721030866055337541847168824068011620956269180213925839507147230308591535829487400206831844260603065643874892052116825068088378739601817910029529141657935961253932213127321255915029201213526784736309466741579741597873850464438385877464869353909651359495627178839430146209401700441405922464675434818918523499438455214689591390687567164847641636375224270084026503405254578234096040223183854871937318650467333054338829475759148929814828556962650651760031788368590761813166167205905848712092799810897904162200014917125750304105845468769092346964883658052022988397995296817439429640519633206298259917350429043135834912272577041589223246051848570035546260641622897374431781258304695306183681035828859293740930129131354076110812636247250801192414561635978143163985854185468980967952859791550979892766899856244965308045368185615313106642092161130872159713609330289049918951637186045494951663736819119260213790826706845686227018042053074748829366992138045405949901104987310140346347303707327997821867853797936725061433189951682949575764159902417353387180475782368618437269576091156679964447057472115238006604469002550222630788504909554698705185131402533056333683396263753283076628017781009895627881675618543627288922824632970692090047498891889985238799092036533534191808267960335394848708908720877363607409476541058522484964979266977606937015531476530742938861286565609654908817698372053150241813458206915405235842940228820353710500486343112179836510603365702191159166281954563939476122203375258990624530320258418998960893138161190664682696184561504658269548411655982878342032112790052095896567798347555752612704103329455807127504752026152433502426879355296700515559272635095391249311652756062613039195858426419816292747362158161262546993975927924178797537677222326331586753886236517723373997209421132917577374011999475175488392934840659522605318746064079770087410296647485002154138327679191158290473545754817176392576415104613774199223161294936153697856945047951096988358397728901968856884720014941487403311576202643248428287822694932111802481512036079824696744426760294568644524835637670035747218248245962783807050005495393802016739657399993430779366913537006030328859709231207000495033900040042866671496166305005960364293149540498860925359192277160641698326748253171264073237980833363545063766686117608372123286898206824331685688400013978710436302255913253937055938899654081425032542797028640605437945619806845019161975224386201233674690306813680536093262300068776998291159895566462944445072804307262675207548040654869259636024943071848052774579857810392620998802995962669955557424528421769556426491403734414645568772228650051629938572506825933999930090789950736416507430131659313558463443591666942495902094460453195370175050602024123279493217209749203917496261430376300783819422566346772072940050197095931593408139342506412249507939134108472144426318886190468206621628620243067688428210704498930258442362196149140265886508406344254551785330216530989251702237375318969054003404780041990503685966141240435198224551539109454782410550224208377734304988620245030835937503146068628949909626423719532295380188716501170817384123556395560845362084222467489299312459603647124045537468675727075309210449981931458386002248898472829305401065667245810472018082506628998380457556113691160062007317389847862254055999522549418800630007114915349271448192515157631264858551095387700280425691990859069493152754586500903971963641680660008221919033836611636474595704379267766448401531175081206839804872600537306329755661409302408132463341835292416024993874591521711231156764415234544701963201402534794329346478867693917248316212404531576088309634508296715697833095891269479221768908979353011111094291036286146242310624641975465017247679007438659562752876353955812958780796883657104475058114260555577137914773204357731332910904876203481277085656783117395781613348365076786204817119901739665869

/-- Snapshot after forcing the most significant bit of word 0. -/
def NP3 : Nat := 46929754334912105675892246508437663884727032535968377080411571206236726802481326857438561719997186861971925202426107882915786164553619883086346754447078978196822322415844883393928133156313435918362743005942181929518301410666601152713881466335207941149848635910641241223462840647680095998023240086945259065979652871425773701479617810318672740033001189585587907445878271277907271156723239876568611376732383777316565644770423589724048857739138758187479815228424590769600020347325246482522623516286814441925927312231515718190878155072621877030947278774950689745804461734738546031711053522145336578295633476267574710951890742842845175001814756775075792164373290386857763538563216816280660952403951604957335030572254709563364756328351749742510119460071875254826898766182317773140601724929380419632836249821421608053060701799060534652156878486009487819284695613443428571134130297549864954757986460304115729116311530706814468175345087895930154000273146049567295658583595869837909949672206821604012404991533265755039951598732820598842645746145399620071096522022170529385805945554867442454362703846203157557769387057212115442933534778513679913958091418350210384761257839107741408141263607169322899231297257239248879374454075424672076565829842713838629806195959875090544779630577182246468871083614631619846466027089890511983312986634463742668394029356910718123006668842408258035925278368414321552574669115669159806015161850674199706853816683683538926764858923118914835313931201680384449067541635189244089307963025094780685295347258427841956335931131004422914444255172972580527101208065836544928742496963258010821866406112581071966151106894076183581514028889473467706181123826879317222748222835985126545088875046030572904591638421287661199947058863341697989438386745090246030115989350305134244179921102036874953064188057738225270607540876887703854197867212626091181400078753813651762559110487969612671373285112282082324006546003912226926386727290994461500020455746655172671636573057052091125197924699197113305209203081607650994604301286785586782401771089710213539968846387803889356202144877874253376708070269037742311639878212238178913145127724142737063566895721030866055337541847168824068011620956269180213925839507147230308591535829487400206831844260603065643874892052116825068088378739601817910029529141657935961253932213127321255915029201213526784736309466741579741597873850464438385877464869353909651359495627178839430146209401700441405922464675434818918523499438455214689591390687567164847641636375224270084026503405254578234096040223183854871937318650467333054338829475759148929814828556962650651760031788368590761813166167205905848712092799810897904162200014917125750304105845468769092346964883658052022988397995296817439429640519633206298259917350429043135834912272577041589223246051848570035546260641622897374431781258304695306183681035828859293740930129131354076110812636247250801192414561635978143163985854185468980967952859791550979892766899856244965308045368185615313106642092161130872159713609330289049918951637186045494951663736819119260213790826706845686227018042053074748829366992138045405949901104987310140346347303707327997821867853797936725061433189951682949575764159902417353387180475782368618437269576091156679964447057472115238006604469002550222630788504909554698705185131402533056333683396263753283076628017781009895627881675618543627288922824632970692090047498891889985238799092036533534191808267960335394848708908720877363607409476541058522484964979266977606937015531476530742938861286565609654908817698372053150241813458206915405235842940228820353710500486343112179836510603365702191159166281954563939476122203375258990624530320258418998960893138161190664682696184561504658269548411655982878342032112790052095896567798347555752612704103329455807127504752026152433502426879355296700515559272635095391249311652756062613039195858426419816292747362158161262546993975927924178797537677222326331586753886236517723373997209421132917577374011999475175488392934840659522605318746064079770087410296647485002154138327679191158290473545754817176392576415104613774199223161294936153697856945047951096988358397728901968856884720014941487403311576202643248428287822694932111802481512036079824696744426760294568644524835637670035747218248245962783807050005495393802016739657399993430779366913537006030328859709231207000495033900040042866671496166305005960364293149540498860925359192277160641698326748253171264073237980833363545063766686117608372123286898206824331685688400013978710436302255913253937055938899654081425032542797028640605437945619806845019161975224386201233674690306813680536093262300068776998291159895566462944445072804307262675207548040654869259636024943071848052774579857810392620998802995962669955557424528421769556426491403734414645568772228650051629938572506825933999930090789950736416507430131659313558463443591666942495902094460453195370175050602024123279493217209749203917496261430376300783819422566346772072940050197095931593408139342506412249507939134108472144426318886190468206621628620243067688428210704498930258442362196149140265886508406344254551785330216530989251702237375318969054003404780041990503685966141240435198224551539109454782410550224208377734304988620245030835937503146068628949909626423719532295380188716501170817384123556395560845362084222467489299312459603647124045537468675727075309210449981931458386002248898472829305401065667245810472018082506628998380457556113691160062007317389847862254055999522549418800630007114915349271448192515157631264858551095387700280425691990859069493152754586500903971963641680660008221919033836611636474595704379267766448401531175081206839804872600537306329755661409302408132463341835292416024993874591521711231156764415234544701963201402534794329346478867693917248316212404531576088309634508296715697833095891269479221768908979353011111094291036286146242310624641975465017247679007438659562752876353955812958780796883657104475058114260555577137914773204357731332910904876203481277085656783117395781613348365076786204699035672237834240

/-- Iterated xoshiro256** state: the state after `n` extraction calls. -/
def xoshiroIter (st : XState) : Nat → XState
  | 0 => st
  | n + 1 => (xoshiro_next (xoshiroIter st n)).2


/-! ## Basic lemmas -/

theorem U64_eq : U64 = 2 ^ 64 := rfl

theorem U64_pos : 0 < U64 := Nat.two_pow_pos 64

theorem add64_lt (a b : Nat) : add64 a b < U64 := Nat.mod_lt _ U64_pos

theorem mul64_lt (a b : Nat) : mul64 a b < U64 := Nat.mod_lt _ U64_pos

theorem sub64_lt (a b : Nat) : sub64 a b < U64 := Nat.mod_lt _ U64_pos

theorem shl64_lt (a k : Nat) : shl64 a k < U64 := Nat.mod_lt _ U64_pos

theorem upd_self (w : Nat → Nat) (k v : Nat) : upd w k v k = v := if_pos rfl

theorem upd_other (w : Nat → Nat) (k v i : Nat) (h : i ≠ k) : upd w k v i = w i := if_neg h

theorem upd_frame (w : Nat → Nat) (k v m : Nat) (hk : k < 312) (hm : 312 ≤ m) :
    upd w k v m = w m := upd_other _ _ _ _ (by omega)

theorem shiftRight_le_self (x n : Nat) : x >>> n ≤ x := by
  rw [Nat.shiftRight_eq_div_pow]
  exact Nat.div_le_self _ _

theorem upd_lt (w : Nat → Nat) (k v : Nat) (hb : ∀ j, w j < U64) (hv : v < U64) :
    ∀ j, upd w k v j < U64 := by
  intro j
  unfold upd
  split
  · exact hv
  · exact hb j

/-! ## Packing lemmas -/

theorem encodeAux_lt (w : Nat → Nat) (hb : ∀ j, w j < U64) :
    ∀ fuel i, encodeAux w i fuel < 2 ^ (64 * fuel) := by
  intro fuel
  induction fuel with
  | zero => intro i; simp [encodeAux]
  | succ f ih =>
    intro i
    have h1 : encodeAux w (i + 1) f < 2 ^ (64 * f) := ih (i + 1)
    have h2 : w i < 2 ^ 64 := U64_eq ▸ hb i
    simp only [encodeAux, Nat.shiftLeft_eq]
    have hp : 2 ^ (64 * (f + 1)) = 2 ^ (64 * f) * 2 ^ 64 := by
      rw [← pow_add]
      congr 1
    rw [hp]
    calc w i + encodeAux w (i + 1) f * 2 ^ 64
        < (encodeAux w (i + 1) f + 1) * 2 ^ 64 := by omega
      _ ≤ 2 ^ (64 * f) * 2 ^ 64 := Nat.mul_le_mul_right _ (by omega)

theorem encodeAux_extract (w : Nat → Nat) (hb : ∀ j, w j < U64) :
    ∀ fuel i k, k < fuel → (encodeAux w i fuel >>> (64 * k)) % U64 = w (i + k) := by
  intro fuel
  induction fuel with
  | zero => intro i k hk; exact absurd hk (Nat.not_lt_zero k)
  | succ f ih =>
    intro i k hk
    match k with
    | 0 =>
      simp only [encodeAux, Nat.mul_zero, Nat.shiftRight_zero, Nat.shiftLeft_eq, Nat.add_zero]
      rw [U64_eq, Nat.add_mul_mod_self_right]
      exact Nat.mod_eq_of_lt (U64_eq ▸ hb i)
    | k + 1 =>
      simp only [encodeAux, Nat.shiftLeft_eq, Nat.shiftRight_eq_div_pow]
      have hsplit : (64 * (k + 1)) = 64 + 64 * k := by ring
      rw [hsplit, pow_add, ← Nat.div_div_eq_div_mul]
      have hq : (w i + encodeAux w (i + 1) f * 2 ^ 64) / 2 ^ 64 = encodeAux w (i + 1) f := by
        rw [Nat.add_mul_div_right _ _ (Nat.two_pow_pos 64), Nat.div_eq_of_lt (U64_eq ▸ hb i)]
        omega
      rw [hq]
      have hrec := ih (i + 1) k (by omega)
      rw [Nat.shiftRight_eq_div_pow] at hrec
      rw [show i + (k + 1) = (i + 1) + k by omega]
      exact hrec

theorem state_eq_of_encode (w : Nat → Nat) (N : Nat) (hb : ∀ j, w j < U64)
    (hz : ∀ j, 312 ≤ j → w j = 0) (he : encode w = N) : w = fromN N := by
  funext i
  by_cases hi : i < 312
  · have hx := encodeAux_extract w hb 312 0 i hi
    simp only [Nat.zero_add] at hx
    rw [fromN, ← he]
    exact hx.symm
  · have hzi := hz i (by omega)
    have hlt : encode w < 2 ^ (64 * 312) := encodeAux_lt w hb 312 0
    rw [hzi, fromN, ← he]
    have hsh : encode w >>> (64 * i) = 0 := by
      rw [Nat.shiftRight_eq_div_pow]
      apply Nat.div_eq_of_lt
      calc encode w < 2 ^ (64 * 312) := hlt
        _ ≤ 2 ^ (64 * i) := Nat.pow_le_pow_right (by omega) (by omega)
    rw [hsh]
    rfl

theorem fromN_lt (N : Nat) : ∀ i, fromN N i < U64 := by
  intro i
  exact Nat.mod_lt _ U64_pos

theorem fromN_zero (N : Nat) (hN : N < 2 ^ (64 * 312)) : ∀ i, 312 ≤ i → fromN N i = 0 := by
  intro i hi
  have hsh : N >>> (64 * i) = 0 := by
    rw [Nat.shiftRight_eq_div_pow]
    apply Nat.div_eq_of_lt
    calc N < 2 ^ (64 * 312) := hN
      _ ≤ 2 ^ (64 * i) := Nat.pow_le_pow_right (by omega) (by omega)
  rw [fromN, hsh]
  rfl

/-! ## Loop invariants: word bounds and untouched positions -/

theorem seedLoop_lt : ∀ fuel (w : Nat → Nat) mti, (∀ j, w j < U64) →
    ∀ j, seedLoop w mti fuel j < U64 := by
  intro fuel
  induction fuel with
  | zero => intro w mti hb j; exact hb j
  | succ f ih =>
    intro w mti hb j
    exact ih _ _ (upd_lt _ _ _ hb (add64_lt _ _)) j

theorem seedLoop_frame : ∀ fuel (w : Nat → Nat) mti j, (j < mti ∨ mti + fuel ≤ j) →
    seedLoop w mti fuel j = w j := by
  intro fuel
  induction fuel with
  | zero => intro w mti j _; rfl
  | succ f ih =>
    intro w mti j hj
    simp only [seedLoop]
    rw [ih _ _ _ (by omega), upd_other _ _ _ _ (by omega)]

theorem arrayPass1_lt : ∀ fuel (w : Nat → Nat) i j key, (∀ m, w m < U64) →
    ∀ m, (arrayPass1 w i j key fuel).1 m < U64 := by
  intro fuel
  induction fuel with
  | zero => intro w i j key hb m; exact hb m
  | succ f ih =>
    intro w i j key hb m
    simp only [arrayPass1]
    split
    · exact ih _ _ _ _ (upd_lt _ _ _ (upd_lt _ _ _ hb (add64_lt _ _))
        (upd_lt _ _ _ hb (add64_lt _ _) _)) m
    · exact ih _ _ _ _ (upd_lt _ _ _ hb (add64_lt _ _)) m

theorem arrayPass1_frame : ∀ fuel (w : Nat → Nat) i j key m, i < NN → 312 ≤ m →
    (arrayPass1 w i j key fuel).1 m = w m := by
  intro fuel
  induction fuel with
  | zero => intro w i j key m _ _; rfl
  | succ f ih =>
    intro w i j key m hi hm
    rw [show NN = 312 from rfl] at hi
    simp only [arrayPass1]
    by_cases hwrap : NN ≤ i + 1
    · rw [if_pos hwrap]
      dsimp only
      rw [ih _ 1 _ key m (by rw [show NN = 312 from rfl]; omega) hm]
      rw [upd_frame _ 0 _ m (by omega) hm, upd_frame _ i _ m (by omega) hm]
    · rw [if_neg hwrap]
      dsimp only
      rw [ih _ (i + 1) _ key m (by rw [show NN = 312 from rfl] at hwrap ⊢; omega) hm]
      rw [upd_frame _ i _ m (by omega) hm]

theorem arrayPass2_lt : ∀ fuel (w : Nat → Nat) i, (∀ m, w m < U64) →
    ∀ m, (arrayPass2 w i fuel).1 m < U64 := by
  intro fuel
  induction fuel with
  | zero => intro w i hb m; exact hb m
  | succ f ih =>
    intro w i hb m
    simp only [arrayPass2]
    split
    · exact ih _ _ (upd_lt _ _ _ (upd_lt _ _ _ hb (sub64_lt _ _))
        (upd_lt _ _ _ hb (sub64_lt _ _) _)) m
    · exact ih _ _ (upd_lt _ _ _ hb (sub64_lt _ _)) m

theorem arrayPass2_frame : ∀ fuel (w : Nat → Nat) i m, i < NN → 312 ≤ m →
    (arrayPass2 w i fuel).1 m = w m := by
  intro fuel
  induction fuel with
  | zero => intro w i m _ _; rfl
  | succ f ih =>
    intro w i m hi hm
    rw [show NN = 312 from rfl] at hi
    simp only [arrayPass2]
    by_cases hwrap : NN ≤ i + 1
    · rw [if_pos hwrap]
      dsimp only
      rw [ih _ 1 m (by rw [show NN = 312 from rfl]; omega) hm]
      rw [upd_frame _ 0 _ m (by omega) hm, upd_frame _ i _ m (by omega) hm]
    · rw [if_neg hwrap]
      dsimp only
      rw [ih _ (i + 1) m (by rw [show NN = 312 from rfl] at hwrap ⊢; omega) hm]
      rw [upd_frame _ i _ m (by omega) hm]

theorem g_lt (s a b : Nat) (hs : s < U64) : g s a b < U64 := by
  rw [U64_eq] at hs ⊢
  have hUM : UM < 2 ^ 64 := by norm_num [UM]
  have hLM : LM < 2 ^ 64 := by norm_num [LM]
  have hA : MATRIX_A < 2 ^ 64 := by norm_num [MATRIX_A]
  unfold g
  apply Nat.xor_lt_two_pow
  · apply Nat.xor_lt_two_pow hs
    apply Nat.lt_of_le_of_lt (shiftRight_le_self _ _)
    apply Nat.or_lt_two_pow
    · exact Nat.lt_of_le_of_lt Nat.and_le_right hUM
    · exact Nat.lt_of_le_of_lt Nat.and_le_right hLM
  · calc (b &&& 1) * MATRIX_A ≤ 1 * MATRIX_A :=
        Nat.mul_le_mul_right _ Nat.and_le_right
    _ < 2 ^ 64 := by rw [Nat.one_mul]; exact hA

theorem fastTwistAux_lt : ∀ fuel (w : Nat → Nat) i j, (∀ m, w m < U64) →
    ∀ m, fastTwistAux w i j fuel m < U64 := by
  intro fuel
  induction fuel with
  | zero => intro w i j hb m; exact hb m
  | succ f ih =>
    intro w i j hb m
    simp only [fastTwistAux, twistStep]
    apply ih
    intro m2
    apply upd_lt
    · exact upd_lt _ _ _ hb (g_lt _ _ _ (hb _))
    · exact g_lt _ _ _ (upd_lt _ _ _ hb (g_lt _ _ _ (hb _)) _)

theorem fastTwistAux_frame : ∀ fuel (w : Nat → Nat) i j m, i + fuel ≤ 312 → j + fuel ≤ 312 →
    312 ≤ m → fastTwistAux w i j fuel m = w m := by
  intro fuel
  induction fuel with
  | zero => intro w i j m _ _ _; rfl
  | succ f ih =>
    intro w i j m hi hj hm
    simp only [fastTwistAux, twistStep]
    rw [ih _ _ _ _ (by omega) (by omega) hm,
      upd_other _ _ _ _ (by omega), upd_other _ _ _ _ (by omega)]

/-! ## Concrete seeding runs checked against packed snapshots -/

theorem base_lt : ∀ j, upd (fun _ => 0) 0 19650218 j < U64 := by
  intro j
  unfold upd
  split
  · rw [U64_eq]
    omega
  · show (0 : Nat) < U64
    exact U64_pos

theorem NI_lt : NI < 2 ^ (64 * 312) := by decide!

theorem NP1_lt : NP1 < 2 ^ (64 * 312) := by decide!

theorem NP2_lt : NP2 < 2 ^ (64 * 312) := by decide!

theorem stage_init : seedLoop (upd (fun _ => 0) 0 19650218) 1 (NN - 1) = fromN NI := by
  apply state_eq_of_encode
  · exact seedLoop_lt _ _ _ base_lt
  · intro j hj
    rw [seedLoop_frame (NN - 1) _ 1 j (Or.inr (by rw [show NN = 312 from rfl]; omega))]
    exact upd_other _ 0 _ j (by omega)
  · decide!

theorem stage_pass1_state :
    (arrayPass1 (fromN NI) 1 0 [0x12345, 0x23456, 0x34567, 0x45678]
      (max NN (List.length [0x12345, 0x23456, 0x34567, 0x45678]))).1 = fromN NP1 := by
  apply state_eq_of_encode
  · exact arrayPass1_lt _ _ _ _ _ (fromN_lt NI)
  · intro j hj
    rw [arrayPass1_frame _ _ _ _ _ j (by rw [show NN = 312 from rfl]; omega) hj]
    exact fromN_zero NI NI_lt j hj
  · decide!

theorem stage_pass1_cursor :
    (arrayPass1 (fromN NI) 1 0 [0x12345, 0x23456, 0x34567, 0x45678]
      (max NN (List.length [0x12345, 0x23456, 0x34567, 0x45678]))).2.1 = 2 := by decide!

theorem stage_pass2_state : (arrayPass2 (fromN NP1) 2 (NN - 1)).1 = fromN NP2 := by
  apply state_eq_of_encode
  · exact arrayPass2_lt _ _ _ (fromN_lt NP1)
  · intro j hj
    rw [arrayPass2_frame _ _ _ j (by rw [show NN = 312 from rfl]; omega) hj]
    exact fromN_zero NP1 NP1_lt j hj
  · decide!

theorem stage_msb : upd (fromN NP2) 0 (1 <<< 63) = fromN NP3 := by
  apply state_eq_of_encode
  · exact upd_lt _ _ _ (fromN_lt NP2) (by decide)
  · intro j hj
    rw [upd_other _ 0 _ j (by omega)]
    exact fromN_zero NP2 NP2_lt j hj
  · decide!

theorem mt_array_concrete :
    init_by_array64 [0x12345, 0x23456, 0x34567, 0x45678] = ⟨fromN NP3, NN⟩ := by
  simp only [init_by_array64, init_genrand64]
  rw [stage_init, stage_pass1_state, stage_pass1_cursor, stage_pass2_state, stage_msb]


/-- C2: seeding via the array seeding with key `[0x12345, 0x23456, 0x34567,
0x45678]` and then drawing once from `genrand64_int64` yields exactly the
published first reference output 7266447313870364031. -/
theorem mt_seed_array_first_draw :
    (genrand64_int64 (init_by_array64 [0x12345, 0x23456, 0x34567, 0x45678])).1 =
      7266447313870364031 := by
  rw [mt_array_concrete]
  decide!

/-! ## Equivalence of the restructured untwist with the naive recurrence -/

theorem newLow_155 (w : Nat → Nat) : newLow w 155 = g (w 311) (w 155) (w 156) := if_pos rfl

theorem newLow_ne (w : Nat → Nat) (k : Nat) (hk : k ≠ 155) :
    newLow w k = g (w (k + 156)) (w k) (w (k + 1)) := if_neg hk

theorem newVal_low (w : Nat → Nat) (k : Nat) (hk : k < 156) : newVal w k = newLow w k :=
  if_pos hk

theorem newVal_mid (w : Nat → Nat) (k : Nat) (h1 : 156 ≤ k) (h2 : k < 311) :
    newVal w k = g (newLow w (k - 156)) (w k) (w (k + 1)) := by
  unfold newVal
  rw [if_neg (by omega), if_pos h2]

theorem newVal_311 (w : Nat → Nat) :
    newVal w 311 = g (newLow w 155) (w 311) (newLow w 0) := by
  unfold newVal
  rw [if_neg (by omega), if_neg (by omega), if_pos rfl]

theorem newVal_hi (w : Nat → Nat) (k : Nat) (hk : 312 ≤ k) : newVal w k = w k := by
  unfold newVal
  rw [if_neg (by omega), if_neg (by omega), if_neg (by omega)]

theorem mix_lt (w : Nat → Nat) (k i : Nat) (h : i < k) : mix w k i = newVal w i := if_pos h

theorem mix_ge (w : Nat → Nat) (k i : Nat) (h : ¬ i < k) : mix w k i = w i := if_neg h

theorem mix_zero (w : Nat → Nat) : mix w 0 = w := funext fun i => if_neg (by omega)

theorem mix_312 (w : Nat → Nat) : mix w 312 = fun i => newVal w i := by
  funext i
  unfold mix
  by_cases h : i < 312
  · rw [if_pos h]
  · rw [if_neg h, newVal_hi w i (by omega)]

theorem naiveStep_mix (w : Nat → Nat) (k : Nat) (hk : k < 312) :
    naiveStep (mix w k) k = mix w (k + 1) := by
  have hval : g (mix w k ((k + MM) % NN)) (mix w k k) (mix w k ((k + 1) % NN)) = newVal w k := by
    rw [show MM = 156 from rfl, show NN = 312 from rfl]
    rw [mix_ge w k k (by omega)]
    by_cases h1 : k < 155
    · rw [show (k + 156) % 312 = k + 156 by omega, show (k + 1) % 312 = k + 1 by omega]
      rw [mix_ge w k (k + 156) (by omega), mix_ge w k (k + 1) (by omega)]
      rw [newVal_low w k (by omega), newLow_ne w k (by omega)]
    · by_cases h2 : k = 155
      · subst h2
        rw [show (155 + 156) % 312 = 311 by norm_num, show (155 + 1) % 312 = 156 by norm_num]
        rw [mix_ge w 155 311 (by omega), mix_ge w 155 156 (by omega)]
        rw [newVal_low w 155 (by omega), newLow_155]
      · by_cases h3 : k < 311
        · rw [show (k + 156) % 312 = k - 156 by omega, show (k + 1) % 312 = k + 1 by omega]
          rw [mix_lt w k (k - 156) (by omega), mix_ge w k (k + 1) (by omega)]
          rw [newVal_mid w k (by omega) h3, newVal_low w (k - 156) (by omega)]
        · have h4 : k = 311 := by omega
          subst h4
          rw [show (311 + 156) % 312 = 155 by norm_num, show (311 + 1) % 312 = 0 by norm_num]
          rw [mix_lt w 311 155 (by omega), mix_lt w 311 0 (by omega)]
          rw [newVal_311, newVal_low w 155 (by omega), newVal_low w 0 (by omega)]
  funext i
  unfold naiveStep
  by_cases hik : i = k
  · subst hik
    rw [upd_self, hval, mix_lt w (i + 1) i (by omega)]
  · rw [upd_other _ _ _ _ hik]
    unfold mix
    by_cases hlt : i < k
    · rw [if_pos hlt, if_pos (by omega)]
    · rw [if_neg hlt, if_neg (by omega)]

theorem naiveTwistAux_mix : ∀ fuel k (w : Nat → Nat), k + fuel ≤ 312 →
    naiveTwistAux (mix w k) k fuel = mix w (k + fuel) := by
  intro fuel
  induction fuel with
  | zero => intro k w _; rfl
  | succ f ih =>
    intro k w h
    show naiveTwistAux (naiveStep (mix w k) k) (k + 1) f = _
    rw [naiveStep_mix w k (by omega), ih (k + 1) w (by omega),
      show k + 1 + f = k + (f + 1) by omega]

theorem naiveTwist_eq (w : Nat → Nat) : naiveTwist w = fun i => newVal w i := by
  unfold naiveTwist
  have h := naiveTwistAux_mix NN 0 w (by rw [show NN = 312 from rfl])
  rw [mix_zero] at h
  rw [h, show 0 + NN = 312 from rfl, mix_312]

theorem mix2_in_low (w : Nat → Nat) (t i : Nat) (h : i < t) : mix2 w t i = newVal w i :=
  if_pos (Or.inl h)

theorem mix2_in_high (w : Nat → Nat) (t i : Nat) (h1 : 156 ≤ i) (h2 : i < 156 + t) :
    mix2 w t i = newVal w i := if_pos (Or.inr ⟨h1, h2⟩)

theorem mix2_out (w : Nat → Nat) (t i : Nat) (h : ¬ (i < t ∨ (156 ≤ i ∧ i < 156 + t))) :
    mix2 w t i = w i := if_neg h

theorem mix2_zero (w : Nat → Nat) : mix2 w 0 = w := funext fun i => if_neg (by omega)

theorem twistStep_mix2 (w : Nat → Nat) (t : Nat) (ht : t < 155) :
    twistStep (mix2 w t) t (t + 156) = mix2 w (t + 1) := by
  simp only [twistStep, MM]
  have hv1 : g (mix2 w t (t + 156)) (mix2 w t t) (mix2 w t (t + 1)) = newVal w t := by
    rw [mix2_out w t (t + 156) (by omega), mix2_out w t t (by omega),
      mix2_out w t (t + 1) (by omega)]
    rw [newVal_low w t (by omega), newLow_ne w t (by omega)]
  rw [hv1]
  rw [show t + 156 - 156 = t by omega]
  rw [upd_self]
  rw [upd_other _ _ _ _ (show t + 156 ≠ t by omega),
    upd_other _ _ _ _ (show t + 156 + 1 ≠ t by omega)]
  rw [mix2_out w t (t + 156) (by omega), mix2_out w t (t + 156 + 1) (by omega)]
  have hv2 : g (newVal w t) (w (t + 156)) (w (t + 156 + 1)) = newVal w (t + 156) := by
    rw [newVal_mid w (t + 156) (by omega) (by omega)]
    rw [show t + 156 - 156 = t by omega, newVal_low w t (by omega)]
  rw [hv2]
  funext i
  by_cases hij : i = t + 156
  · subst hij
    rw [upd_self, mix2_in_high w (t + 1) (t + 156) (by omega) (by omega)]
  · rw [upd_other _ _ _ _ hij]
    by_cases hit : i = t
    · rw [hit, upd_self, mix2_in_low w (t + 1) t (by omega)]
    · rw [upd_other _ _ _ _ hit]
      unfold mix2
      by_cases hc : i < t ∨ (156 ≤ i ∧ i < 156 + t)
      · rw [if_pos hc, if_pos (by omega)]
      · rw [if_neg hc, if_neg (by omega)]

theorem fastTwistAux_mix2 : ∀ fuel t (w : Nat → Nat), t + fuel ≤ 155 →
    fastTwistAux (mix2 w t) t (t + 156) fuel = mix2 w (t + fuel) := by
  intro fuel
  induction fuel with
  | zero => intro t w _; rfl
  | succ f ih =>
    intro t w h
    show fastTwistAux (twistStep (mix2 w t) t (t + 156)) (t + 1) (t + 156 + 1) f = _
    rw [twistStep_mix2 w t (by omega), show t + 156 + 1 = (t + 1) + 156 by omega,
      ih (t + 1) w (by omega), show t + 1 + f = t + (f + 1) by omega]

theorem fastTwist_eq (w : Nat → Nat) : fastTwist w = fun i => newVal w i := by
  have haux : fastTwistAux w 0 156 155 = mix2 w 155 := by
    have h := fastTwistAux_mix2 155 0 w (by omega)
    rw [mix2_zero] at h
    simp only [Nat.zero_add] at h
    exact h
  simp only [fastTwist]
  rw [show NN / 2 = 156 from rfl, show NN - 1 = 311 from rfl, show (156 : Nat) - 1 = 155 from rfl]
  rw [haux]
  have hv155 : g (mix2 w 155 311) (mix2 w 155 155) (w 156) = newVal w 155 := by
    rw [mix2_out w 155 311 (by omega), mix2_out w 155 155 (by omega)]
    rw [newVal_low w 155 (by omega), newLow_155]
  rw [hv155]
  rw [upd_other _ _ _ _ (show (311 : Nat) ≠ 155 by omega), upd_self,
    upd_other _ _ _ _ (show (0 : Nat) ≠ 155 by omega)]
  rw [mix2_out w 155 311 (by omega), mix2_in_low w 155 0 (by omega)]
  have hv311 : g (newVal w 155) (w 311) (newVal w 0) = newVal w 311 := by
    rw [newVal_311, newVal_low w 155 (by omega), newVal_low w 0 (by omega)]
  rw [hv311]
  funext i
  by_cases h311 : i = 311
  · subst h311
    rw [upd_self]
  · rw [upd_other _ _ _ _ h311]
    by_cases h155 : i = 155
    · subst h155
      rw [upd_self]
    · rw [upd_other _ _ _ _ h155]
      by_cases hc : i < 155
      · rw [mix2_in_low w 155 i hc]
      · by_cases hc2 : 156 ≤ i ∧ i < 311
        · rw [mix2_in_high w 155 i hc2.1 (by omega)]
        · rw [mix2_out w 155 i (by omega), newVal_hi w i (by omega)]

/-! ## Supporting lemmas for the xoshiro claims -/

theorem or_eq_zero {a b : Nat} (h : a ||| b = 0) : a = 0 ∧ b = 0 := by
  have hall : ∀ i, a.testBit i = false ∧ b.testBit i = false := by
    intro i
    have hc := congrArg (fun x => Nat.testBit x i) h
    simp only [Nat.testBit_or, Nat.zero_testBit, Bool.or_eq_false_iff] at hc
    exact hc
  exact ⟨Nat.zero_of_testBit_eq_false (fun i => (hall i).1),
    Nat.zero_of_testBit_eq_false (fun i => (hall i).2)⟩

theorem rotl45_zero (x : Nat) (hx : x < U64) (h : rotl x 45 = 0) : x = 0 := by
  unfold rotl shl64 at h
  obtain ⟨h1, h2⟩ := or_eq_zero h
  rw [Nat.shiftRight_eq_div_pow] at h2
  have hx19 : x < 2 ^ (64 - 45) := (Nat.div_eq_zero_iff (Nat.two_pow_pos _)).1 h2
  have hdvd : U64 ∣ x <<< 45 := Nat.dvd_of_mod_eq_zero h1
  have hlt : x <<< 45 < U64 := by
    rw [Nat.shiftLeft_eq, U64_eq]
    calc x * 2 ^ 45 < 2 ^ (64 - 45) * 2 ^ 45 :=
          mul_lt_mul_of_pos_right hx19 (Nat.two_pow_pos 45)
      _ = 2 ^ 64 := by rw [← pow_add]
  have hz := Nat.eq_zero_of_dvd_of_lt hdvd hlt
  rw [Nat.shiftLeft_eq] at hz
  rcases Nat.mul_eq_zero.1 hz with hcase | hcase
  · exact hcase
  · exact absurd hcase (Nat.two_pow_pos 45).ne'

theorem shl17_fixed (x : Nat) (hx : x < U64) (h : shl64 x 17 = x) : x = 0 := by
  unfold shl64 at h
  rw [Nat.shiftLeft_eq] at h
  have hdm := Nat.div_add_mod (x * 2 ^ 17) U64
  rw [h] at hdm
  have hdvd : U64 ∣ x * 131071 := by
    refine ⟨x * 2 ^ 17 / U64, ?_⟩
    have hU : U64 = 18446744073709551616 := rfl
    rw [hU] at hdm ⊢
    omega
  have hco : Nat.Coprime U64 131071 := by decide
  exact Nat.eq_zero_of_dvd_of_lt (hco.dvd_of_dvd_mul_right hdvd) hx

/-! ## Supporting lemmas for the rotation claim -/

theorem rotl_decomp (x k : Nat) (hx : x < 2 ^ 64) (hk : k ≤ 64) :
    rotl x k = 2 ^ k * (x % 2 ^ (64 - k)) + x / 2 ^ (64 - k) := by
  have hsplit : (2 : Nat) ^ 64 = 2 ^ (64 - k) * 2 ^ k := by
    rw [← pow_add]
    congr 1
    omega
  have hd : x / 2 ^ (64 - k) < 2 ^ k := by
    apply Nat.div_lt_of_lt_mul
    rw [← hsplit]
    exact hx
  unfold rotl shl64
  rw [Nat.shiftLeft_eq, Nat.shiftRight_eq_div_pow, U64_eq, hsplit, Nat.mul_mod_mul_right,
    Nat.mul_comm (x % 2 ^ (64 - k)) (2 ^ k)]
  exact (Nat.mul_add_lt_is_or hd _).symm

/-! ## The claims -/

/-- C1: whenever the batch is exhausted (`mti ≥ NN`), the regeneration
performed inside `genrand64_int64` — the restructured two-pass loop with
its two boundary updates — produces exactly the same array as the naive
single-pass modulo-indexed textbook recurrence `naiveTwist`. -/
theorem mt_untwist_equiv (c : MT19937) (h : NN ≤ c.mti) :
    (genrand64_int64 c).2.mt = naiveTwist c.mt := by
  simp only [genrand64_int64]
  rw [if_pos h]
  show fastTwist c.mt = naiveTwist c.mt
  rw [fastTwist_eq, naiveTwist_eq]

theorem mt_untwist_equiv_witness :
    (genrand64_int64 ⟨fun _ => 0, 312⟩).2.mt = naiveTwist (fun _ => 0) :=
  mt_untwist_equiv ⟨fun _ => 0, 312⟩ (by decide)

theorem init_scalar_word0 (seed : Nat) : (init_genrand64 seed).mt 0 = seed := by
  simp only [init_genrand64]
  rw [seedLoop_frame (NN - 1) _ 1 0 (Or.inl (by omega)), upd_self]

theorem init_array_word0 (key : List Nat) : (init_by_array64 key).mt 0 = 1 <<< 63 := by
  simp only [init_by_array64]
  rw [upd_self]

/-- C3 counterexample: scalar seeding with seed 0 leaves the most
significant bit of `mt[0]` clear, refuting the claim that every seeding
operation sets it. -/
theorem mt_seed_msb_counterexample : ((init_genrand64 0).mt 0).testBit 63 = false := by
  rw [init_scalar_word0 0]
  decide

/-- C3 amended: array seeding always sets the most significant bit of
`mt[0]` (it forces `mt[0] = 1 << 63`), while scalar seeding stores the
seed itself in `mt[0]`, so the bit is set only when the seed has it. -/
theorem mt_seed_msb_amended :
    (∀ key : List Nat, ((init_by_array64 key).mt 0).testBit 63 = true) ∧
    (∀ seed : Nat, (init_genrand64 seed).mt 0 = seed) := by
  constructor
  · intro key
    rw [init_array_word0 key]
    decide
  · exact init_scalar_word0

/-- C4: one step of `xoshiro_next` emits `rotl(s1 * 5, 7) * 9` computed
from the pre-step `s1` and performs the state update in source order, each
xor reading the just-updated value of the previous target: the new state
is `(s0 ^ (s3 ^ s1), s1 ^ (s2 ^ s0), (s2 ^ s0) ^ (s1 << 17), rotl(s3 ^ s1, 45))`
in terms of the pre-step words. -/
theorem xoshiro_next_spec (st : XState) :
    xoshiro_next st =
      (mul64 (rotl (mul64 st.s1 5) 7) 9,
        ⟨st.s0 ^^^ (st.s3 ^^^ st.s1), st.s1 ^^^ (st.s2 ^^^ st.s0),
         (st.s2 ^^^ st.s0) ^^^ shl64 st.s1 17, rotl (st.s3 ^^^ st.s1) 45⟩) := rfl

/-- C5: the xoshiro step preserves the invariant that the state is not
all zero: if some word of a 64-bit state is non-zero, some word of the
next state is non-zero as well. -/
theorem xoshiro_preserves_nonzero (st : XState)
    (h0 : st.s0 < U64) (h1 : st.s1 < U64) (h2 : st.s2 < U64) (h3 : st.s3 < U64)
    (hnz : ¬ (st.s0 = 0 ∧ st.s1 = 0 ∧ st.s2 = 0 ∧ st.s3 = 0)) :
    ¬ ((xoshiro_next st).2.s0 = 0 ∧ (xoshiro_next st).2.s1 = 0 ∧
       (xoshiro_next st).2.s2 = 0 ∧ (xoshiro_next st).2.s3 = 0) := by
  intro hall
  apply hnz
  obtain ⟨z0, z1, z2, z3⟩ := hall
  have e0 : (xoshiro_next st).2.s0 = st.s0 ^^^ (st.s3 ^^^ st.s1) := rfl
  have e1 : (xoshiro_next st).2.s1 = st.s1 ^^^ (st.s2 ^^^ st.s0) := rfl
  have e2 : (xoshiro_next st).2.s2 = (st.s2 ^^^ st.s0) ^^^ shl64 st.s1 17 := rfl
  have e3 : (xoshiro_next st).2.s3 = rotl (st.s3 ^^^ st.s1) 45 := rfl
  rw [e0] at z0
  rw [e1] at z1
  rw [e2] at z2
  rw [e3] at z3
  have hs31 : st.s3 ^^^ st.s1 = 0 := by
    apply rotl45_zero _ _ z3
    rw [U64_eq]
    exact Nat.xor_lt_two_pow (U64_eq ▸ h3) (U64_eq ▸ h1)
  have hs3 : st.s3 = st.s1 := Nat.xor_eq_zero.1 hs31
  have hs0 : st.s0 = 0 := by rwa [hs31, Nat.xor_zero] at z0
  have hs21 : st.s2 ^^^ st.s0 = st.s1 := (Nat.xor_eq_zero.1 z1).symm
  have hfix : shl64 st.s1 17 = st.s1 := by
    have hz := Nat.xor_eq_zero.1 z2
    rw [hs21] at hz
    exact hz.symm
  have hs1 : st.s1 = 0 := shl17_fixed _ h1 hfix
  have hs2 : st.s2 = 0 := by
    have hh := hs21
    rw [hs0, Nat.xor_zero, hs1] at hh
    exact hh
  exact ⟨hs0, hs1, hs2, hs3.trans hs1⟩

theorem xoshiro_preserves_nonzero_witness :
    ¬ ((xoshiro_next ⟨1, 0, 0, 0⟩).2.s0 = 0 ∧ (xoshiro_next ⟨1, 0, 0, 0⟩).2.s1 = 0 ∧
       (xoshiro_next ⟨1, 0, 0, 0⟩).2.s2 = 0 ∧ (xoshiro_next ⟨1, 0, 0, 0⟩).2.s3 = 0) :=
  xoshiro_preserves_nonzero ⟨1, 0, 0, 0⟩ (by decide) (by decide) (by decide) (by decide)
    (by decide)

/-- C6: array seeding with a non-empty key terminates with `mt[0] = 2^63`
and `mti = 312` (the mixing passes never touch `mti`, which the initial
scalar seeding with 19650218 left at 312). -/
theorem mt_seed_array_final (key : List Nat) (h : key ≠ []) :
    (init_by_array64 key).mt 0 = 2 ^ 63 ∧ (init_by_array64 key).mti = 312 := by
  refine ⟨?_, rfl⟩
  rw [init_array_word0 key]
  decide

theorem mt_seed_array_final_witness :
    (init_by_array64 [1]).mt 0 = 2 ^ 63 ∧ (init_by_array64 [1]).mti = 312 :=
  mt_seed_array_final [1] (by decide)

/-- C7: on the all-zero state `xoshiro_next` returns 0 and leaves the
state all-zero, so the all-zero state is a fixed point and every
subsequent draw is 0 as well. -/
theorem xoshiro_zero_fixed_point :
    xoshiro_next ⟨0, 0, 0, 0⟩ = (0, ⟨0, 0, 0, 0⟩) ∧
    ∀ n : Nat, xoshiroIter ⟨0, 0, 0, 0⟩ n = ⟨0, 0, 0, 0⟩ ∧
      (xoshiro_next (xoshiroIter ⟨0, 0, 0, 0⟩ n)).1 = 0 := by
  have hstep : xoshiro_next ⟨0, 0, 0, 0⟩ = (0, ⟨0, 0, 0, 0⟩) := rfl
  refine ⟨hstep, ?_⟩
  intro n
  induction n with
  | zero => exact ⟨rfl, rfl⟩
  | succ n ih =>
    have hn : xoshiroIter ⟨0, 0, 0, 0⟩ (n + 1) = ⟨0, 0, 0, 0⟩ := by
      show (xoshiro_next (xoshiroIter ⟨0, 0, 0, 0⟩ n)).2 = _
      rw [ih.1, hstep]
    refine ⟨hn, ?_⟩
    rw [hn, hstep]

/-- C8: a left rotation by `k` (for `0 < k < 64`) composed with a left
rotation by `64 - k` is the identity on 64-bit words. -/
theorem rotl_inverse (x k : Nat) (hx : x < U64) (hk0 : 0 < k) (hk : k < 64) :
    rotl (rotl x k) (64 - k) = x := by
  rw [U64_eq] at hx
  have h1 := rotl_decomp x k hx (by omega)
  have hsplit : (2 : Nat) ^ 64 = 2 ^ (64 - k) * 2 ^ k := by
    rw [← pow_add]
    congr 1
    omega
  have ha : x / 2 ^ (64 - k) < 2 ^ k := by
    apply Nat.div_lt_of_lt_mul
    rw [← hsplit]
    exact hx
  have hb : x % 2 ^ (64 - k) < 2 ^ (64 - k) := Nat.mod_lt _ (Nat.two_pow_pos _)
  have hr : rotl x k < 2 ^ 64 := by
    rw [h1, hsplit]
    calc 2 ^ k * (x % 2 ^ (64 - k)) + x / 2 ^ (64 - k)
        < 2 ^ k * (x % 2 ^ (64 - k)) + 2 ^ k := by omega
      _ = 2 ^ k * (x % 2 ^ (64 - k) + 1) := by ring
      _ ≤ 2 ^ k * 2 ^ (64 - k) := Nat.mul_le_mul_left _ (by omega)
      _ = 2 ^ (64 - k) * 2 ^ k := Nat.mul_comm _ _
  have h2 := rotl_decomp (rotl x k) (64 - k) hr (by omega)
  rw [show 64 - (64 - k) = k by omega] at h2
  rw [h2, h1, Nat.mul_add_mod, Nat.mul_add_div (Nat.two_pow_pos k),
    Nat.mod_eq_of_lt ha, Nat.div_eq_of_lt ha, Nat.add_zero]
  exact Nat.div_add_mod x (2 ^ (64 - k))

theorem rotl_inverse_witness : rotl (rotl 5 7) (64 - 7) = 5 :=
  rotl_inverse 5 7 (by decide) (by decide) (by decide)

/-- C10: when the batch is not exhausted (`mti < NN`), a call to
`genrand64_int64` leaves every word of the state array unchanged and
increments `mti` by exactly one. -/
theorem mt_next_frame (c : MT19937) (h : c.mti < NN) :
    (genrand64_int64 c).2.mt = c.mt ∧ (genrand64_int64 c).2.mti = c.mti + 1 := by
  simp only [genrand64_int64]
  rw [if_neg (by omega)]
  exact ⟨rfl, rfl⟩

theorem mt_next_frame_witness :
    (genrand64_int64 ⟨fun _ => 0, 0⟩).2.mt = (fun _ => (0 : Nat)) ∧
    (genrand64_int64 ⟨fun _ => 0, 0⟩).2.mti = 0 + 1 :=
  mt_next_frame ⟨fun _ => 0, 0⟩ (by decide)

end CwlRandom
